import Mathlib

/-
Shallow embedding of the OpenFang repository's Python sources:
  * src/crates/openfang-runtime/src/browser_bridge.py — the Playwright
    browser bridge speaking a JSON-line stdio protocol, and
  * src/sdk/python/openfang_sdk.py — the single-shot agent SDK.

The Playwright driver itself is not part of the repository; its operations
(page.goto, page.click, page.title, page.evaluate, ...) are modelled as an
abstract environment `Env` of functions on an abstract page state.  A Python
exception raised by a driver call is modelled as `Except.error` carrying the
formatted message `f"{type(e).__name__}: {e}"` that the bridge's read loop
would print, together with the page state left behind by the failed call.
-/

namespace OpenFang

/-- Abstract state of the single Playwright page held by the bridge:
its current URL attribute plus an opaque identifier of the rest of the
browser/DOM state that the driver operations read and update. -/
structure Page where
  url : String
  dom : Nat
deriving DecidableEq

/-- A JSON command object as the bridge uses it: a finite map from field
names to string values.  The bridge only ever reads string-valued fields
(`action`, `url`, `selector`, `text`) via `dict.get(key, "")`. -/
structure Cmd where
  fields : List (String × String)
deriving DecidableEq

/-- Python `cmd.get(key, default)` on the parsed JSON object. -/
def Cmd.get (c : Cmd) (key default : String) : String :=
  match c.fields.lookup key with
  | some v => v
  | none => default

/-- A JSON response line written by `respond`: either
`{"success": true, "data": {...}}` with string-valued data fields, or
`{"success": false, "error": msg}`. -/
inductive Resp where
  | ok (data : List (String × String))
  | err (msg : String)
deriving DecidableEq

/-- Abstract semantics of the Playwright driver calls made by
browser_bridge.py.  Mutating calls (`goto`, `click`, `fill`,
`wait_for_load_state`) take the timeout and the current page and either
return the new page state or raise, an exception also recording the page
state it leaves behind.  Read-only calls (`title`, `screenshot`,
`evaluate`, `inner_text`) return a string or raise without mutating. -/
structure Env where
  goto : String → Nat → Page → Except (String × Page) Page
  clickSel : String → Nat → Page → Except (String × Page) Page
  clickByText : String → Nat → Page → Except (String × Page) Page
  fill : String → String → Nat → Page → Except (String × Page) Page
  waitLoad : Nat → Page → Except (String × Page) Page
  titleOf : Page → Except String String
  screenshotB64 : Page → Except String String
  evalReadable : Page → Except String String
  innerTextBody : Page → Except String String

/-- The truncation applied to extracted page content
(browser_bridge.py lines 166-168 and 174-175, identical in both branches):
content longer than 50000 characters is cut to its first 50000 characters
with a marker naming the original length appended; shorter content is
returned unchanged. -/
def truncateContent (s : String) : String :=
  if s.length > 50000 then
    s.take 50000 ++ "\n\n[Truncated — " ++ toString s.length ++ " total chars]"
  else s

/-- Embeds `extract_readable(page)` (browser_bridge.py lines 124-178): evaluate the
readability JavaScript; on success truncate its result; if it raises, fall
back to `page.inner_text("body")` with the same truncation; if that also
raises, return the fixed placeholder string.  Never raises. -/
def extract_readable (env : Env) (page : Page) : String :=
  match env.evalReadable page with
  | Except.ok content =>
      if content.length > 50000 then
        content.take 50000 ++ "\n\n[Truncated — " ++ toString content.length ++ " total chars]"
      else content
  | Except.error _ =>
      match env.innerTextBody page with
      | Except.ok text =>
          if text.length > 50000 then
            text.take 50000 ++ "\n\n[Truncated — " ++ toString text.length ++ " total chars]"
          else text
      | Except.error _ => "(could not extract page content)"

/-- Embeds `handle_command(page, context, action, cmd, timeout_ms)`
(browser_bridge.py lines 73-121).  The unused `context` parameter is
dropped.  The result pairs the response with the page state after the
command; `Except.error` is a Python exception propagating out of
`handle_command` into the read loop's `except` clause. -/
def handle_command (env : Env) (page : Page) (action : String) (cmd : Cmd)
    (timeout_ms : Nat) : Except (String × Page) (Resp × Page) :=
  if action = "Navigate" then
    let url := cmd.get "url" ""
    if url = "" then
      Except.ok (Resp.err "Missing 'url' parameter", page)
    else
      match env.goto url timeout_ms page with
      | Except.error ep => Except.error ep
      | Except.ok p1 =>
        match env.titleOf p1 with
        | Except.error e => Except.error (e, p1)
        | Except.ok title =>
          let content := extract_readable env p1
          Except.ok (Resp.ok [("title", title), ("url", p1.url), ("content", content)], p1)
  else if action = "Click" then
    let selector := cmd.get "selector" ""
    if selector = "" then
      Except.ok (Resp.err "Missing 'selector' parameter", page)
    else
      match
        match env.clickSel selector timeout_ms page with
        | Except.ok p1 => Except.ok p1
        | Except.error (_, p1) => env.clickByText selector timeout_ms p1
      with
      | Except.error ep => Except.error ep
      | Except.ok p1 =>
        match env.waitLoad timeout_ms p1 with
        | Except.error ep => Except.error ep
        | Except.ok p2 =>
          match env.titleOf p2 with
          | Except.error e => Except.error (e, p2)
          | Except.ok title =>
            Except.ok (Resp.ok [("clicked", selector), ("title", title), ("url", p2.url)], p2)
  else if action = "Type" then
    let selector := cmd.get "selector" ""
    let text := cmd.get "text" ""
    if selector = "" then
      Except.ok (Resp.err "Missing 'selector' parameter", page)
    else if text = "" then
      Except.ok (Resp.err "Missing 'text' parameter", page)
    else
      match env.fill selector text timeout_ms page with
      | Except.error ep => Except.error ep
      | Except.ok p1 => Except.ok (Resp.ok [("typed", text), ("selector", selector)], p1)
  else if action = "Screenshot" then
    match env.screenshotB64 page with
    | Except.error e => Except.error (e, page)
    | Except.ok b64 =>
      Except.ok (Resp.ok [("image_base64", b64), ("format", "png"), ("url", page.url)], page)
  else if action = "ReadPage" then
    match env.titleOf page with
    | Except.error e => Except.error (e, page)
    | Except.ok title =>
      let content := extract_readable env page
      Except.ok (Resp.ok [("title", title), ("url", page.url), ("content", content)], page)
  else if action = "Close" then
    Except.ok (Resp.ok [("status", "closed")], page)
  else
    Except.ok (Resp.err ("Unknown action: " ++ action), page)

/-- One stripped stdin line of the read loop (browser_bridge.py lines
48-62), classified by what happens up to the `cmd.get("action", "")` call:
`blank` — `line.strip()` was empty, the loop skips it; `bad msg` —
`json.loads(line)` raised, or the parsed value was not a dict so
`cmd.get` raised, with `msg` the formatted `f"{type(e).__name__}: {e}"`
message; `parsed c` — the line parsed to the JSON object `c`. -/
inductive LineKind where
  | blank
  | bad (msg : String)
  | parsed (c : Cmd)
deriving DecidableEq

/-- True for lines the loop must answer: everything except a blank line. -/
def LineKind.isContent : LineKind → Bool
  | LineKind.blank => false
  | _ => true

/-- The body of the read loop for a parsed line: run `handle_command` on the
extracted action; a normal return is responded as-is, an exception is
caught and responded as `{"success": false, "error": msg}`
(browser_bridge.py lines 56-59). -/
def dispatch (env : Env) (timeout_ms : Nat) (page : Page) (c : Cmd) : Resp × Page :=
  match handle_command env page (c.get "action" "") c timeout_ms with
  | Except.ok rp => rp
  | Except.error (e, p1) => (Resp.err e, p1)

/-- The read loop `for line in sys.stdin` (browser_bridge.py lines 48-62)
over the classified stdin lines.  Returns the responses written, the final
page state, and the stdin lines left unread (nonempty exactly when the
loop hit `break` on `action == "Close"`). -/
def runLoop (env : Env) (timeout_ms : Nat) :
    Page → List LineKind → List Resp × Page × List LineKind
  | page, [] => ([], page, [])
  | page, LineKind.blank :: rest => runLoop env timeout_ms page rest
  | page, LineKind.bad msg :: rest =>
      let r := runLoop env timeout_ms page rest
      (Resp.err msg :: r.1, r.2)
  | page, LineKind.parsed c :: rest =>
      let rp := dispatch env timeout_ms page c
      if c.get "action" "" = "Close" then
        ([rp.1], rp.2, rest)
      else
        let r := runLoop env timeout_ms rp.2 rest
        (rp.1 :: r.1, r.2)

/-- The cleanup block after the read loop (browser_bridge.py lines 64-70):
a single `try` around `context.close()`, `browser.close()`, `pw.stop()`
with `except Exception: pass`.  Inputs are the outcomes each release call
would have (`Except.error` = it raises when reached).  Returns the list of
release calls actually attempted, in order, and whether any exception
propagates out of the cleanup (it never does: the `except` swallows it). -/
def cleanup (ctxClose browserClose pwStop : Except String Unit) :
    List String × Bool :=
  match ctxClose with
  | Except.error _ => (["context.close"], false)
  | Except.ok _ =>
    match browserClose with
    | Except.error _ => (["context.close", "browser.close"], false)
    | Except.ok _ =>
      match pwStop with
      | Except.error _ => (["context.close", "browser.close", "pw.stop"], false)
      | Except.ok _ => (["context.close", "browser.close", "pw.stop"], false)

/-- The input message the SDK's `Agent.run` extracts from `read_input()`
(openfang_sdk.py lines 107-109): `data.get("message", "")` and
`data.get("context", {})`, the context modelled as a finite string map. -/
structure InputData where
  message : String
  context : List (String × String)

/-- The value a registered message handler returns to `Agent.run`
(openfang_sdk.py lines 111-118): a `str`, a `dict` (its optional string
`text` field, its optional `metadata` field, and its Python `str(result)`
rendering used as the fallback text), or any other value rendered by
`str(result)`. -/
inductive HandlerRet where
  | str (s : String)
  | dict (text : Option String) (metadata : Option (List (String × String))) (reprStr : String)
  | other (reprStr : String)

/-- A `{"type": "response", ...}` object written to stdout by `respond`
(openfang_sdk.py lines 47-52); `metadata` is `none` when the argument was
absent or falsy (Python `if metadata:` skips `None` and the empty dict). -/
structure SdkResponse where
  text : String
  metadata : Option (List (String × String))
deriving DecidableEq

/-- Embeds `respond(text, metadata)` (openfang_sdk.py lines 47-52). -/
def respond (text : String) (metadata : Option (List (String × String))) : SdkResponse :=
  { text := text
    metadata :=
      match metadata with
      | some m => if m = [] then none else some m
      | none => none }

/-- The `respond(...)` call `Agent.run` makes for a handler result
(openfang_sdk.py lines 113-118). -/
def respondFor (result : HandlerRet) : SdkResponse :=
  match result with
  | HandlerRet.str s => respond s none
  | HandlerRet.dict text metadata reprStr => respond (text.getD reprStr) metadata
  | HandlerRet.other reprStr => respond reprStr none

/-- An `Agent` as configured before `run` (openfang_sdk.py lines 60-95):
the optional registered handler (which may raise, `Except.error` carrying
the exception message), and the outcomes of the optional setup and
teardown hooks when called. -/
structure Agent where
  handler : Option (String → List (String × String) → Except String HandlerRet)
  setup : Option (Except String Unit)
  teardown : Option (Except String Unit)

/-- The `try` block of `Agent.run` (openfang_sdk.py lines 103-118): call
setup if registered, read the input, call the handler, build the success
response; the first exception raised by any of these aborts the block. -/
def tryBody (setup : Option (Except String Unit)) (input : Except String InputData)
    (h : String → List (String × String) → Except String HandlerRet) :
    Except String SdkResponse :=
  match (match setup with
         | some s => s
         | none => Except.ok ()) with
  | Except.error e => Except.error e
  | Except.ok _ =>
    match input with
    | Except.error e => Except.error e
    | Except.ok data =>
      match h data.message data.context with
      | Except.error e => Except.error e
      | Except.ok result => Except.ok (respondFor result)

/-- Embeds `Agent.run()` (openfang_sdk.py lines 97-129) with `input` the outcome
of `read_input()` (`Except.error` = its `json.loads` raised).  Returns the
process exit status requested by `sys.exit` (`none` = `run` returns
normally) and the response objects written to stdout.  The `finally`
block's teardown call cannot change either: its exceptions are caught and
only logged to stderr (lines 124-129). -/
def Agent.run (a : Agent) (input : Except String InputData) :
    Option Nat × List SdkResponse :=
  match a.handler with
  | none => (some 1, [])
  | some h =>
    match tryBody a.setup input h with
    | Except.ok resp => (none, [resp])
    | Except.error e => (some 1, [respond ("Error: " ++ e) none])

/-- A concrete driver environment on which every call succeeds, for
evaluating the embedding at concrete inputs. -/
def env0 : Env where
  goto := fun u _ p => Except.ok { url := u, dom := p.dom + 1 }
  clickSel := fun _ _ p => Except.ok p
  clickByText := fun _ _ p => Except.ok p
  fill := fun _ _ _ p => Except.ok p
  waitLoad := fun _ p => Except.ok p
  titleOf := fun _ => Except.ok "Example"
  screenshotB64 := fun _ => Except.ok "aW1n"
  evalReadable := fun _ => Except.ok "hello"
  innerTextBody := fun _ => Except.ok "hello"

/-- A concrete page state. -/
def page0 : Page := { url := "about:blank", dom := 0 }

/-- A concrete `{"action": "ReadPage"}` command. -/
def cmd0 : Cmd := { fields := [("action", "ReadPage")] }

/-- C1 counterexample: the claim says a failure in one release step does
not prevent the subsequent release steps from being attempted, but when
`context.close()` raises, `browser.close()` is never attempted — the three
calls share a single try/except. -/
theorem cleanup_skips_after_failure :
    ¬ "browser.close" ∈
      (cleanup (Except.error "TargetClosedError: context already closed")
        (Except.ok ()) (Except.ok ())).1 := by
  decide

/-- C1 (amended): during bridge teardown the release steps run in the order
context-close, browser-close, driver-stop, and no teardown failure
propagates out of the bridge; but because all three calls sit inside one
try/except, an exception raised by an earlier step skips the later steps
instead of each step being attempted independently. -/
theorem cleanup_order_and_no_propagation (c b s : Except String Unit) :
    (cleanup c b s).2 = false
  ∧ (cleanup c b s).1.head? = some "context.close"
  ∧ (c = Except.ok () → b = Except.ok () →
      (cleanup c b s).1 = ["context.close", "browser.close", "pw.stop"])
  ∧ (c = Except.ok () → (∃ e, b = Except.error e) →
      (cleanup c b s).1 = ["context.close", "browser.close"])
  ∧ ((∃ e, c = Except.error e) → (cleanup c b s).1 = ["context.close"]) := by
  rcases c with e | u
  · refine ⟨rfl, rfl, ?_, ?_, ?_⟩ <;> simp [cleanup]
  · rcases b with e | v
    · cases u
      refine ⟨?_, ?_, ?_, ?_, ?_⟩ <;> rcases s with e2 | w <;> simp [cleanup]
    · cases u; cases v
      refine ⟨?_, ?_, ?_, ?_, ?_⟩ <;> rcases s with e2 | w <;> simp [cleanup]

/-- C1 witness for the amended statement: with all three release calls
succeeding, everything is attempted in order and nothing propagates. -/
theorem cleanup_order_and_no_propagation_witness :
    (cleanup (Except.ok ()) (Except.ok ()) (Except.ok ())).1
      = ["context.close", "browser.close", "pw.stop"] :=
  (cleanup_order_and_no_propagation (Except.ok ()) (Except.ok ()) (Except.ok ())).2.2.1 rfl rfl

/-- C2: every extracted string longer than 50000 characters is returned as
exactly its first 50000 characters with a marker naming the original
character count appended; a string of at most 50000 characters is returned
unmodified, with no marker. -/
theorem extracted_content_truncation (env : Env) (p : Page) (s : String) :
    (env.evalReadable p = Except.ok s → extract_readable env p = truncateContent s)
  ∧ (s.length > 50000 →
      truncateContent s
        = s.take 50000 ++ "\n\n[Truncated — " ++ toString s.length ++ " total chars]")
  ∧ (s.length ≤ 50000 → truncateContent s = s) := by
  refine ⟨?_, ?_, ?_⟩
  · intro h
    unfold extract_readable truncateContent
    rw [h]
  · intro h
    unfold truncateContent
    rw [if_pos h]
  · intro h
    unfold truncateContent
    rw [if_neg (by omega)]

/-- C2 witness: a 5-character extraction is returned unmodified, and a
50001-character string is truncated with the marker appended. -/
theorem extracted_content_truncation_witness :
    extract_readable env0 page0 = "hello"
  ∧ truncateContent (String.mk (List.replicate 50001 'a'))
      = (String.mk (List.replicate 50001 'a')).take 50000 ++ "\n\n[Truncated — "
        ++ toString (String.mk (List.replicate 50001 'a')).length ++ " total chars]" := by
  constructor
  · exact ((extracted_content_truncation env0 page0 "hello").1 rfl).trans
      ((extracted_content_truncation env0 page0 "hello").2.2 (by decide))
  · exact (extracted_content_truncation env0 page0 (String.mk (List.replicate 50001 'a'))).2.1
      (by show 50000 < (List.replicate 50001 'a').length; rw [List.length_replicate]; omega)

/-- C4: a command whose action is none of Navigate, Click, Type,
Screenshot, ReadPage, Close gets the response
`{"success": false, "error": "Unknown action: X"}`; the page state is
unchanged and no driver call is made (the result does not depend on the
environment). -/
theorem unknown_action_response (env : Env) (p : Page) (cmd : Cmd) (t : Nat) (action : String)
    (h1 : action ≠ "Navigate") (h2 : action ≠ "Click") (h3 : action ≠ "Type")
    (h4 : action ≠ "Screenshot") (h5 : action ≠ "ReadPage") (h6 : action ≠ "Close") :
    handle_command env p action cmd t
      = Except.ok (Resp.err ("Unknown action: " ++ action), p) := by
  unfold handle_command
  rw [if_neg h1, if_neg h2, if_neg h3, if_neg h4, if_neg h5, if_neg h6]

/-- C4 witness at the concrete unknown action "Frobnicate". -/
theorem unknown_action_response_witness :
    handle_command env0 page0 "Frobnicate" { fields := [("action", "Frobnicate")] } 30000
      = Except.ok (Resp.err ("Unknown action: " ++ "Frobnicate"), page0) :=
  unknown_action_response env0 page0 { fields := [("action", "Frobnicate")] } 30000 "Frobnicate"
    (by decide) (by decide) (by decide) (by decide) (by decide) (by decide)

/-- C6: a Navigate command whose object has no url field is answered with
`{"success": false, "error": "Missing 'url' parameter"}`, the page state
unchanged and no driver call made (the result does not depend on the
environment). -/
theorem navigate_missing_url (env : Env) (p : Page) (cmd : Cmd) (t : Nat)
    (h : cmd.fields.lookup "url" = none) :
    handle_command env p "Navigate" cmd t
      = Except.ok (Resp.err "Missing 'url' parameter", p) := by
  have hget : cmd.get "url" "" = "" := by simp [Cmd.get, h]
  simp [handle_command, hget]

/-- C6 witness: a concrete Navigate command with no url field. -/
theorem navigate_missing_url_witness :
    handle_command env0 page0 "Navigate" { fields := [("action", "Navigate")] } 30000
      = Except.ok (Resp.err "Missing 'url' parameter", page0) :=
  navigate_missing_url env0 page0 { fields := [("action", "Navigate")] } 30000 rfl

/-- C10: for Navigate, Click and Type, a required field that is present but
equal to the empty string is treated exactly like an absent field: the
dispatcher answers with the corresponding missing-parameter error, leaves
the page unchanged and makes no driver call (the result does not depend on
the environment) — because `cmd.get(key, "")` followed by Python's
falsy-string test cannot tell `""` apart from an absent key. -/
theorem empty_field_like_missing (env : Env) (p : Page) (cmd : Cmd) (t : Nat) :
    (cmd.fields.lookup "url" = some "" →
      handle_command env p "Navigate" cmd t
        = Except.ok (Resp.err "Missing 'url' parameter", p))
  ∧ (cmd.fields.lookup "selector" = some "" →
      handle_command env p "Click" cmd t
        = Except.ok (Resp.err "Missing 'selector' parameter", p))
  ∧ (cmd.fields.lookup "selector" = some "" →
      handle_command env p "Type" cmd t
        = Except.ok (Resp.err "Missing 'selector' parameter", p))
  ∧ (cmd.fields.lookup "text" = some "" → cmd.get "selector" "" ≠ "" →
      handle_command env p "Type" cmd t
        = Except.ok (Resp.err "Missing 'text' parameter", p)) := by
  refine ⟨?_, ?_, ?_, ?_⟩
  · intro h
    have hget : cmd.get "url" "" = "" := by simp [Cmd.get, h]
    simp [handle_command, hget]
  · intro h
    have hget : cmd.get "selector" "" = "" := by simp [Cmd.get, h]
    simp [handle_command, hget]
  · intro h
    have hget : cmd.get "selector" "" = "" := by simp [Cmd.get, h]
    simp [handle_command, hget]
  · intro h hsel
    have hget : cmd.get "text" "" = "" := by simp [Cmd.get, h]
    simp [handle_command, hget, hsel]

/-- C10 witness: Navigate with `"url": ""` gets the missing-url error, and
Type with a selector but `"text": ""` gets the missing-text error. -/
theorem empty_field_like_missing_witness :
    handle_command env0 page0 "Navigate"
        { fields := [("action", "Navigate"), ("url", "")] } 30000
      = Except.ok (Resp.err "Missing 'url' parameter", page0)
  ∧ handle_command env0 page0 "Type"
        { fields := [("action", "Type"), ("selector", "#box"), ("text", "")] } 30000
      = Except.ok (Resp.err "Missing 'text' parameter", page0) := by
  constructor
  · exact (empty_field_like_missing env0 page0
      { fields := [("action", "Navigate"), ("url", "")] } 30000).1 rfl
  · exact (empty_field_like_missing env0 page0
      { fields := [("action", "Type"), ("selector", "#box"), ("text", "")] } 30000).2.2.2
      rfl (by decide)

/-- C9: a parsed JSON object with no action field is dispatched with the
empty string as its action, so the loop answers
`{"success": false, "error": "Unknown action: "}` (the generic
unknown-action error with an empty action name), leaves the page unchanged
and continues with the next line. -/
theorem missing_action_empty_unknown (env : Env) (t : Nat) (p : Page) (c : Cmd)
    (rest : List LineKind) (h : c.fields.lookup "action" = none) :
    runLoop env t p (LineKind.parsed c :: rest)
      = (Resp.err "Unknown action: " :: (runLoop env t p rest).1,
         (runLoop env t p rest).2) := by
  have hget : c.get "action" "" = "" := by simp [Cmd.get, h]
  have hd : dispatch env t p c = (Resp.err "Unknown action: ", p) := by
    unfold dispatch
    rw [hget]
    rfl
  simp only [runLoop, hget, hd]
  simp

/-- C9 witness: a concrete object `{"url": "https://x.test"}` with no
action field, followed by one further line. -/
theorem missing_action_empty_unknown_witness :
    runLoop env0 30000 page0
        [LineKind.parsed { fields := [("url", "https://x.test")] },
         LineKind.parsed cmd0]
      = (Resp.err "Unknown action: "
           :: (runLoop env0 30000 page0 [LineKind.parsed cmd0]).1,
         (runLoop env0 30000 page0 [LineKind.parsed cmd0]).2) :=
  missing_action_empty_unknown env0 30000 page0
    { fields := [("url", "https://x.test")] } [LineKind.parsed cmd0] rfl

/-- C5: once a Close command is dispatched, exactly one response
`{"success": true, "data": {"status": "closed"}}` is emitted for it, the
read loop stops, the page state is untouched, and all later input lines
are left unread. -/
theorem close_single_response (env : Env) (t : Nat) (p : Page) (c : Cmd)
    (rest : List LineKind) (h : c.get "action" "" = "Close") :
    runLoop env t p (LineKind.parsed c :: rest)
      = ([Resp.ok [("status", "closed")]], p, rest) := by
  have hd : dispatch env t p c = (Resp.ok [("status", "closed")], p) := by
    unfold dispatch
    rw [h]
    rfl
  simp only [runLoop, h, hd]
  simp

/-- C5 witness: `{"action": "Close"}` followed by two further lines yields
the single closed response and leaves both later lines unread. -/
theorem close_single_response_witness :
    runLoop env0 30000 page0
        [LineKind.parsed { fields := [("action", "Close")] },
         LineKind.parsed cmd0, LineKind.bad "junk"]
      = ([Resp.ok [("status", "closed")]], page0,
         [LineKind.parsed cmd0, LineKind.bad "junk"]) :=
  close_single_response env0 30000 page0 { fields := [("action", "Close")] }
    [LineKind.parsed cmd0, LineKind.bad "junk"] rfl

/-- C7: ReadPage never mutates the page, and its response is a pure
function of the current page state (and the driver environment), so two
consecutive ReadPage commands against an unchanged page return identical
responses — in particular identical content strings — with nothing cached
between the calls. -/
theorem readpage_deterministic (env : Env) (p : Page) (cmd cmd' : Cmd) (t t' : Nat)
    (r r' : Resp) (p1 p2 : Page)
    (h1 : handle_command env p "ReadPage" cmd t = Except.ok (r, p1))
    (h2 : handle_command env p1 "ReadPage" cmd' t' = Except.ok (r', p2)) :
    r' = r ∧ p1 = p ∧ p2 = p := by
  unfold handle_command at h1 h2
  simp only [reduceIte] at h1 h2
  cases ht : env.titleOf p with
  | error e =>
      rw [ht] at h1
      simp at h1
  | ok title =>
      rw [ht] at h1
      simp at h1
      obtain ⟨hr, hp1⟩ := h1
      subst hp1
      rw [ht] at h2
      simp at h2
      obtain ⟨hr', hp2⟩ := h2
      subst hr
      subst hr'
      exact ⟨rfl, rfl, hp2.symm⟩

/-- C7 witness: two consecutive ReadPage dispatches on a concrete page. -/
theorem readpage_deterministic_witness :
    (Resp.ok [("title", "Example"), ("url", "about:blank"), ("content", "hello")] : Resp)
        = Resp.ok [("title", "Example"), ("url", "about:blank"), ("content", "hello")]
      ∧ page0 = page0 ∧ page0 = page0 :=
  readpage_deterministic env0 page0 cmd0 cmd0 30000 30000
    (Resp.ok [("title", "Example"), ("url", "about:blank"), ("content", "hello")])
    (Resp.ok [("title", "Example"), ("url", "about:blank"), ("content", "hello")])
    page0 page0 rfl rfl

/-- C8: `Agent.run` exits the process with status 1 when no message
handler was registered, and likewise when the registered handler raises;
and whenever a handler is registered it writes exactly one response object
to stdout (the success response, or the `"Error: ..."` response of the
except branch). -/
theorem agent_run_exit_and_output (a : Agent) (input : Except String InputData) :
    (a.handler = none → Agent.run a input = (some 1, []))
  ∧ (∀ h data e, a.handler = some h →
      (a.setup = none ∨ a.setup = some (Except.ok ())) →
      input = Except.ok data →
      h data.message data.context = Except.error e →
      (Agent.run a input).1 = some 1)
  ∧ (∀ h, a.handler = some h → (Agent.run a input).2.length = 1) := by
  refine ⟨?_, ?_, ?_⟩
  · intro h0
    unfold Agent.run
    rw [h0]
  · intro h data e hh hs hi hraise
    unfold Agent.run tryBody
    rw [hh]
    rcases hs with hs | hs <;> rw [hs, hi] <;> simp [hraise]
  · intro h hh
    unfold Agent.run
    rw [hh]
    cases htb : tryBody a.setup input h <;> simp [htb]

/-- C8 witness: a registered echo handler writes one response; a raising
handler exits with status 1; an agent with no handler exits with status 1
writing nothing. -/
theorem agent_run_exit_and_output_witness :
    (Agent.run
        { handler := some fun m _ => Except.ok (HandlerRet.str ("You said: " ++ m)),
          setup := none, teardown := none }
        (Except.ok { message := "hi", context := [] })).2.length = 1
  ∧ (Agent.run
        { handler := some fun _ _ => Except.error "ValueError: boom",
          setup := none, teardown := none }
        (Except.ok { message := "hi", context := [] })).1 = some 1
  ∧ Agent.run { handler := none, setup := none, teardown := none }
        (Except.ok { message := "hi", context := [] })
      = (some 1, []) := by
  refine ⟨?_, ?_, ?_⟩
  · exact (agent_run_exit_and_output
      { handler := some fun m _ => Except.ok (HandlerRet.str ("You said: " ++ m)),
        setup := none, teardown := none }
      (Except.ok { message := "hi", context := [] })).2.2 _ rfl
  · exact (agent_run_exit_and_output
      { handler := some fun _ _ => Except.error "ValueError: boom",
        setup := none, teardown := none }
      (Except.ok { message := "hi", context := [] })).2.1 _
      { message := "hi", context := [] } "ValueError: boom" rfl (Or.inl rfl) rfl rfl
  · exact (agent_run_exit_and_output
      { handler := none, setup := none, teardown := none }
      (Except.ok { message := "hi", context := [] })).1 rfl

/-- Unfolding lemma: reaching the end of stdin ends the loop. -/
theorem runLoop_nil (env : Env) (t : Nat) (p : Page) :
    runLoop env t p [] = ([], p, []) := by
  simp [runLoop]

/-- Unfolding lemma: a blank line is skipped with no response. -/
theorem runLoop_blank (env : Env) (t : Nat) (p : Page) (rest : List LineKind) :
    runLoop env t p (LineKind.blank :: rest) = runLoop env t p rest := by
  simp [runLoop]

/-- Unfolding lemma: a malformed line gets one error response and the loop
continues with the next line on the same page. -/
theorem runLoop_bad (env : Env) (t : Nat) (p : Page) (msg : String) (rest : List LineKind) :
    runLoop env t p (LineKind.bad msg :: rest)
      = (Resp.err msg :: (runLoop env t p rest).1, (runLoop env t p rest).2) := by
  simp [runLoop]

/-- Unfolding lemma: a parsed line whose action is `"Close"` is answered
and then the loop breaks, leaving the rest of stdin unread. -/
theorem runLoop_parsed_close (env : Env) (t : Nat) (p : Page) (c : Cmd)
    (rest : List LineKind) (h : c.get "action" "" = "Close") :
    runLoop env t p (LineKind.parsed c :: rest)
      = ([(dispatch env t p c).1], (dispatch env t p c).2, rest) := by
  simp only [runLoop]
  rw [if_pos h]

/-- Unfolding lemma: a parsed line whose action is not `"Close"` is
answered and the loop continues on the page the dispatch left behind. -/
theorem runLoop_parsed_cont (env : Env) (t : Nat) (p : Page) (c : Cmd)
    (rest : List LineKind) (h : c.get "action" "" ≠ "Close") :
    runLoop env t p (LineKind.parsed c :: rest)
      = ((dispatch env t p c).1 :: (runLoop env t (dispatch env t p c).2 rest).1,
         (runLoop env t (dispatch env t p c).2 rest).2) := by
  simp only [runLoop]
  rw [if_neg h]

/-- C3: blank lines produce no response; a malformed line produces exactly
one error response and the loop continues; and in general stdin splits
into the processed prefix and the unread suffix, the number of responses
equals the number of non-blank processed lines, and the unread suffix is
nonempty only when the last processed line was a parsed command with
action `"Close"`. -/
theorem line_protocol_response_count (env : Env) (t : Nat) :
    (∀ p rest, runLoop env t p (LineKind.blank :: rest) = runLoop env t p rest)
  ∧ (∀ p msg rest, runLoop env t p (LineKind.bad msg :: rest)
      = (Resp.err msg :: (runLoop env t p rest).1, (runLoop env t p rest).2))
  ∧ (∀ lines p, ∃ processed,
      lines = processed ++ (runLoop env t p lines).2.2
      ∧ (runLoop env t p lines).1.length
          = (processed.filter LineKind.isContent).length
      ∧ ((runLoop env t p lines).2.2 = []
          ∨ ∃ pre c, processed = pre ++ [LineKind.parsed c]
              ∧ c.get "action" "" = "Close")) := by
  refine ⟨runLoop_blank env t, runLoop_bad env t, ?_⟩
  intro lines
  induction lines with
  | nil =>
      intro p
      exact ⟨[], by simp [runLoop_nil]⟩
  | cons hd rest ih =>
      intro p
      cases hd with
      | blank =>
          obtain ⟨pr, hsplit, hcount, hclose⟩ := ih p
          refine ⟨LineKind.blank :: pr, ?_, ?_, ?_⟩
          · rw [runLoop_blank]
            simpa using hsplit
          · rw [runLoop_blank, hcount]
            simp [LineKind.isContent]
          · rw [runLoop_blank]
            rcases hclose with hu | ⟨pre, c, hpr, hc⟩
            · exact Or.inl hu
            · exact Or.inr ⟨LineKind.blank :: pre, c, by simp [hpr], hc⟩
      | bad msg =>
          obtain ⟨pr, hsplit, hcount, hclose⟩ := ih p
          refine ⟨LineKind.bad msg :: pr, ?_, ?_, ?_⟩
          · rw [runLoop_bad]
            simpa using hsplit
          · rw [runLoop_bad]
            simp [LineKind.isContent, hcount]
          · rw [runLoop_bad]
            rcases hclose with hu | ⟨pre, c, hpr, hc⟩
            · exact Or.inl hu
            · exact Or.inr ⟨LineKind.bad msg :: pre, c, by simp [hpr], hc⟩
      | parsed c =>
          by_cases hcl : c.get "action" "" = "Close"
          · refine ⟨[LineKind.parsed c], ?_, ?_, ?_⟩
            · simp [runLoop_parsed_close env t p c rest hcl]
            · rw [runLoop_parsed_close env t p c rest hcl]
              simp [LineKind.isContent]
            · exact Or.inr ⟨[], c, rfl, hcl⟩
          · obtain ⟨pr, hsplit, hcount, hclose⟩ := ih (dispatch env t p c).2
            refine ⟨LineKind.parsed c :: pr, ?_, ?_, ?_⟩
            · rw [runLoop_parsed_cont env t p c rest hcl]
              simpa using hsplit
            · rw [runLoop_parsed_cont env t p c rest hcl]
              simp [LineKind.isContent, hcount]
            · rw [runLoop_parsed_cont env t p c rest hcl]
              rcases hclose with hu | ⟨pre, c2, hpr, hc⟩
              · exact Or.inl hu
              · exact Or.inr ⟨LineKind.parsed c :: pre, c2,
                  by rw [hpr]; exact (List.cons_append _ _ _).symm, hc⟩

end OpenFang
